import Mathlib

/-!
Shallow embedding of the equipment-rental ledger implemented in
`src/app.js` (a single-page demo application).

Modelling conventions, used throughout:

* Timestamps are JavaScript epoch milliseconds, modelled as `Int`
  (`Date.now()`, `new Date(...)` comparisons and subtraction all act on
  this value; the ISO strings stored in rental records are only ever
  turned back into their millisecond value before use).
* A nullable timestamp field is an `Option Int`.  The JavaScript test
  `!r.returnedAt` is `Option.isNone`, since the stored value is either
  `null` or a non-empty ISO date string.
* JavaScript `array.find(p)` / `array.findIndex(p)` followed by an
  in-place mutation of the found element is modelled by `updateFirst p f`,
  which rewrites the first element satisfying `p` and keeps the rest.
* `localStorage` is a key-value map `String → Option String`; the three
  fixed keys hold whole-collection JSON blobs, so the typed ledger state
  `PersistedDB` stands for the decoded contents of those keys.
* A handler that shows an error message and returns without mutating
  anything is modelled as returning `none`.
-/

namespace RentalLedger

/-- Customer object nested in a rental (src/app.js line 43, built at
lines 532-536 of the rent-form submit handler). -/
structure Customer where
  name : String
  phone : String
  email : String

/-- Equipment asset record (src/app.js line 42; field order and fields as
built by the seed data and the add-equipment handler, lines 927-937). -/
structure Asset where
  id : String
  name : String
  category : String
  site : String
  status : String
  lastSeenAt : Int
  imageEmoji : String
  description : String
  quantity : Nat

/-- Rental record (src/app.js line 43; field order as built by the
rent-form submit handler, lines 526-542). -/
structure Rental where
  id : String
  assetId : String
  site : String
  checkOutAt : Int
  checkInAt : Int
  customer : Customer
  fuelAtStart : Nat
  odometerAtStart : Nat
  notes : String
  createdAt : Int
  returnedAt : Option Int

/-- The in-browser ledger: the decoded contents of the `srt_assets` and
`srt_rentals` storage keys. -/
structure Store where
  assets : List Asset
  rentals : List Rental

/-- Rewrite the first element satisfying `p` with `f`; model of a
JavaScript `find`/`findIndex` followed by in-place mutation of the found
element. -/
def updateFirst (p : α → Bool) (f : α → α) : List α → List α
  | [] => []
  | x :: xs => if p x then f x :: xs else x :: updateFirst p f xs

/-- The predicate `r.assetId === assetId && !r.returnedAt` used at
src/app.js lines 353 and 565 to locate an active rental. -/
def activeFor (assetId : String) (r : Rental) : Bool :=
  r.assetId == assetId && r.returnedAt.isNone

/-- The rent-form submit handler, src/app.js lines 523-559: push the new
rental onto the rental list, then `findIndex` the asset by `rental.assetId`
and, when found, set its status to rented, its site to the rental site and
its `lastSeenAt` to the current time.  There is no failure path. -/
def checkOut (s : Store) (r : Rental) (now : Int) : Store :=
  { assets := updateFirst (fun a => a.id == r.assetId)
      (fun a => { a with status := "rented", site := r.site, lastSeenAt := now })
      s.assets,
    rentals := s.rentals ++ [r] }

/-- The `handleCheckIn` function, src/app.js lines 563-580: `find` the
first rental with matching `assetId` and `!returnedAt`; if none exists,
alert and return without mutating anything (modelled as `none`); otherwise
set that rental's `returnedAt` to the current time and, when the asset is
found by `findIndex`, set its status to idle and refresh `lastSeenAt`. -/
def checkIn (s : Store) (assetId : String) (now : Int) : Option Store :=
  if s.rentals.any (activeFor assetId) then
    some { assets := updateFirst (fun a => a.id == assetId)
             (fun a => { a with status := "idle", lastSeenAt := now }) s.assets,
           rentals := updateFirst (activeFor assetId)
             (fun r => { r with returnedAt := some now }) s.rentals }
  else none

/-- The add-equipment submit handler, src/app.js lines 923-947: push the
new asset (built with `status: 'idle'`) onto the asset list. -/
def addAsset (s : Store) (a : Asset) : Store :=
  { s with assets := s.assets ++ [a] }

/-- The overdue test computed in `renderRentalHistory`
(src/app.js line 593, and identically at lines 353-354 of
`renderDashboard`): `!rental.returnedAt && new Date(rental.checkInAt) < now`. -/
def isOverdue (r : Rental) (now : Int) : Bool :=
  r.returnedAt.isNone && decide (r.checkInAt < now)

/-- The overdue-day count of src/app.js line 608 (and line 379):
`isOverdue ? Math.ceil((now - checkInAt) / (1000*60*60*24)) : 0`.
For a positive integer numerator `x`, `Math.ceil (x / 86400000)` equals
`(x + 86400000 - 1) / 86400000` in truncating integer arithmetic, which is
how the ceiling is taken here (the numerator is positive exactly when the
rental is overdue). -/
def overdueDays (r : Rental) (now : Int) : Nat :=
  if isOverdue r now then
    ((now - r.checkInAt).toNat + 86400000 - 1) / 86400000
  else 0

/-- A `localStorage`-style key-value store. -/
def KVStore := String → Option String

/-- The `storage.set` helper, src/app.js lines 32-38:
`try { localStorage.setItem(key, JSON.stringify(value)) } catch (e) { console.error(...) }`.
`serialized = none` models `JSON.stringify` throwing (the write is never
attempted); `writeOk = false` models `localStorage.setItem` throwing, which
by Web Storage semantics leaves the stored data unchanged.  Either
exception is caught and logged, so the session continues. -/
def storageSet (kv : KVStore) (key : String) (serialized : Option String)
    (writeOk : Bool) : KVStore :=
  match serialized with
  | none => kv
  | some s => if writeOk then (fun k => if k = key then some s else kv k) else kv

/-- The `srt_meta` blob written by seeding (src/app.js line 180). -/
structure Meta where
  version : String
  seededAt : Int

/-- The decoded contents of the three fixed storage keys `srt_assets`,
`srt_rentals` and `srt_meta` (src/app.js lines 45-49). -/
structure PersistedDB where
  assets : List Asset
  rentals : List Rental
  meta : Option Meta

/-- Storage with nothing persisted under any of the three keys. -/
def emptyDB : PersistedDB := { assets := [], rentals := [], meta := none }

/-- The demo asset list written by `seedIfEmpty` (src/app.js lines 57-121); every
`lastSeenAt: Date.now()` is the seeding time `t`. -/
def seedAssets (t : Int) : List Asset := [
  { id := "exc-320-1", name := "Excavator CAT 320", category := "Excavator", site := "Yard A", status := "rented", lastSeenAt := t, imageEmoji := "‚õèÔ∏è", description := "20-ton hydraulic excavator with advanced digging capabilities. Features: 1.2 cubic yard bucket, 320¬∞ swing radius, 25.5 ft digging depth. Perfect for foundation work and utility installation.", quantity := 3 },
  { id := "exc-320-2", name := "Excavator CAT 320", category := "Excavator", site := "Yard A", status := "idle", lastSeenAt := t, imageEmoji := "‚õèÔ∏è", description := "20-ton hydraulic excavator with advanced digging capabilities. Features: 1.2 cubic yard bucket, 320¬∞ swing radius, 25.5 ft digging depth. Perfect for foundation work and utility installation.", quantity := 3 },
  { id := "exc-320-3", name := "Excavator CAT 320", category := "Excavator", site := "Yard A", status := "idle", lastSeenAt := t, imageEmoji := "‚õèÔ∏è", description := "20-ton hydraulic excavator with advanced digging capabilities. Features: 1.2 cubic yard bucket, 320¬∞ swing radius, 25.5 ft digging depth. Perfect for foundation work and utility installation.", quantity := 3 },
  { id := "exc-330-1", name := "Excavator CAT 330", category := "Excavator", site := "Yard B", status := "idle", lastSeenAt := t, imageEmoji := "‚õèÔ∏è", description := "30-ton excavator with intelligent hydraulic system and GPS guidance. Features: 1.6 cubic yard bucket, 360¬∞ swing, 30 ft digging depth. Ideal for large construction projects and mining operations.", quantity := 2 },
  { id := "exc-330-2", name := "Excavator CAT 330", category := "Excavator", site := "Yard B", status := "idle", lastSeenAt := t, imageEmoji := "‚õèÔ∏è", description := "30-ton excavator with intelligent hydraulic system and GPS guidance. Features: 1.6 cubic yard bucket, 360¬∞ swing, 30 ft digging depth. Ideal for large construction projects and mining operations.", quantity := 2 },
  { id := "exc-349-1", name := "Excavator CAT 349", category := "Excavator", site := "Yard C", status := "idle", lastSeenAt := t, imageEmoji := "‚õèÔ∏è", description := "50-ton heavy-duty excavator with reinforced undercarriage. Features: 2.5 cubic yard bucket, 40 ft digging depth, 400 hp engine. Designed for extreme mining and large-scale earthmoving.", quantity := 1 },
  { id := "ldr-950-1", name := "Wheel Loader CAT 950", category := "Loader", site := "Yard A", status := "rented", lastSeenAt := t, imageEmoji := "üöú", description := "3.5 cubic yard wheel loader with high-torque engine. Features: 4WD, 200 hp, 8.5 ft lift height. Perfect for material handling, loading trucks, and stockpile management.", quantity := 4 },
  { id := "ldr-950-2", name := "Wheel Loader CAT 950", category := "Loader", site := "Yard A", status := "idle", lastSeenAt := t, imageEmoji := "üöú", description := "3.5 cubic yard wheel loader with high-torque engine. Features: 4WD, 200 hp, 8.5 ft lift height. Perfect for material handling, loading trucks, and stockpile management.", quantity := 4 },
  { id := "ldr-950-3", name := "Wheel Loader CAT 950", category := "Loader", site := "Yard A", status := "idle", lastSeenAt := t, imageEmoji := "üöú", description := "3.5 cubic yard wheel loader with high-torque engine. Features: 4WD, 200 hp, 8.5 ft lift height. Perfect for material handling, loading trucks, and stockpile management.", quantity := 4 },
  { id := "ldr-950-4", name := "Wheel Loader CAT 950", category := "Loader", site := "Yard A", status := "idle", lastSeenAt := t, imageEmoji := "üöú", description := "3.5 cubic yard wheel loader with high-torque engine. Features: 4WD, 200 hp, 8.5 ft lift height. Perfect for material handling, loading trucks, and stockpile management.", quantity := 4 },
  { id := "ldr-966-1", name := "Wheel Loader CAT 966", category := "Loader", site := "Yard B", status := "idle", lastSeenAt := t, imageEmoji := "üöú", description := "6 cubic yard wheel loader with advanced load-sensing hydraulics. Features: 300 hp, 12 ft lift height, 4WD. Excellent for heavy material handling and large-scale operations.", quantity := 2 },
  { id := "ldr-966-2", name := "Wheel Loader CAT 966", category := "Loader", site := "Yard B", status := "idle", lastSeenAt := t, imageEmoji := "üöú", description := "6 cubic yard wheel loader with advanced load-sensing hydraulics. Features: 300 hp, 12 ft lift height, 4WD. Excellent for heavy material handling and large-scale operations.", quantity := 2 },
  { id := "ldr-980-1", name := "Wheel Loader CAT 980", category := "Loader", site := "Yard C", status := "idle", lastSeenAt := t, imageEmoji := "üöú", description := "8 cubic yard wheel loader with high-capacity bucket. Features: 400 hp, 15 ft lift height, reinforced frame. Designed for maximum productivity in large-scale material handling.", quantity := 1 },
  { id := "dmp-730-1", name := "Dump Truck CAT 730", category := "Truck", site := "Yard A", status := "idle", lastSeenAt := t, imageEmoji := "üöõ", description := "30-ton articulated dump truck with all-wheel drive. Features: 350 hp, 20 cubic yard capacity, 40 mph max speed. Perfect for off-road hauling and construction sites.", quantity := 3 },
  { id := "dmp-730-2", name := "Dump Truck CAT 730", category := "Truck", site := "Yard A", status := "idle", lastSeenAt := t, imageEmoji := "üöõ", description := "30-ton articulated dump truck with all-wheel drive. Features: 350 hp, 20 cubic yard capacity, 40 mph max speed. Perfect for off-road hauling and construction sites.", quantity := 3 },
  { id := "dmp-730-3", name := "Dump Truck CAT 730", category := "Truck", site := "Yard A", status := "idle", lastSeenAt := t, imageEmoji := "üöõ", description := "30-ton articulated dump truck with all-wheel drive. Features: 350 hp, 20 cubic yard capacity, 40 mph max speed. Perfect for off-road hauling and construction sites.", quantity := 3 },
  { id := "dmp-740-1", name := "Dump Truck CAT 740", category := "Truck", site := "Yard B", status := "idle", lastSeenAt := t, imageEmoji := "üöõ", description := "40-ton articulated dump truck with advanced suspension. Features: 450 hp, 25 cubic yard capacity, 45 mph max speed. Ideal for heavy-duty hauling operations.", quantity := 2 },
  { id := "dmp-740-2", name := "Dump Truck CAT 740", category := "Truck", site := "Yard B", status := "idle", lastSeenAt := t, imageEmoji := "üöõ", description := "40-ton articulated dump truck with advanced suspension. Features: 450 hp, 25 cubic yard capacity, 45 mph max speed. Ideal for heavy-duty hauling operations.", quantity := 2 },
  { id := "dmp-750-1", name := "Dump Truck CAT 750", category := "Truck", site := "Yard C", status := "idle", lastSeenAt := t, imageEmoji := "üöõ", description := "50-ton articulated dump truck with reinforced chassis. Features: 550 hp, 30 cubic yard capacity, 50 mph max speed. Built for extreme hauling conditions.", quantity := 1 },
  { id := "blt-d6-1", name := "Bulldozer CAT D6", category := "Bulldozer", site := "Yard A", status := "idle", lastSeenAt := t, imageEmoji := "üöú", description := "Medium-sized bulldozer with 12-foot blade. Features: 200 hp, 6-way blade control, GPS guidance. Perfect for grading, leveling, and earthmoving operations.", quantity := 3 },
  { id := "blt-d6-2", name := "Bulldozer CAT D6", category := "Bulldozer", site := "Yard A", status := "idle", lastSeenAt := t, imageEmoji := "üöú", description := "Medium-sized bulldozer with 12-foot blade. Features: 200 hp, 6-way blade control, GPS guidance. Perfect for grading, leveling, and earthmoving operations.", quantity := 3 },
  { id := "blt-d6-3", name := "Bulldozer CAT D6", category := "Bulldozer", site := "Yard A", status := "idle", lastSeenAt := t, imageEmoji := "üöú", description := "Medium-sized bulldozer with 12-foot blade. Features: 200 hp, 6-way blade control, GPS guidance. Perfect for grading, leveling, and earthmoving operations.", quantity := 3 },
  { id := "blt-d8-1", name := "Bulldozer CAT D8", category := "Bulldozer", site := "Yard B", status := "idle", lastSeenAt := t, imageEmoji := "üöú", description := "Large bulldozer with 16-foot blade and high horsepower. Features: 350 hp, 8-way blade control, ripper attachment. Designed for heavy construction and mining work.", quantity := 2 },
  { id := "blt-d8-2", name := "Bulldozer CAT D8", category := "Bulldozer", site := "Yard B", status := "idle", lastSeenAt := t, imageEmoji := "üöú", description := "Large bulldozer with 16-foot blade and high horsepower. Features: 350 hp, 8-way blade control, ripper attachment. Designed for heavy construction and mining work.", quantity := 2 },
  { id := "blt-d9-1", name := "Bulldozer CAT D9", category := "Bulldozer", site := "Yard C", status := "idle", lastSeenAt := t, imageEmoji := "üöú", description := "Extra-large bulldozer with 18-foot blade. Features: 500 hp, 10-way blade control, extreme duty undercarriage. Built for the most demanding earthmoving projects.", quantity := 1 },
  { id := "crn-120-1", name := "Crane CAT 120", category := "Crane", site := "Yard A", status := "idle", lastSeenAt := t, imageEmoji := "üèóÔ∏è", description := "120-ton mobile crane with telescopic boom. Features: 150 ft max reach, 360¬∞ rotation, outrigger stabilization. Perfect for construction and industrial lifting operations.", quantity := 2 },
  { id := "crn-120-2", name := "Crane CAT 120", category := "Crane", site := "Yard A", status := "idle", lastSeenAt := t, imageEmoji := "üèóÔ∏è", description := "120-ton mobile crane with telescopic boom. Features: 150 ft max reach, 360¬∞ rotation, outrigger stabilization. Perfect for construction and industrial lifting operations.", quantity := 2 },
  { id := "crn-200-1", name := "Crane CAT 200", category := "Crane", site := "Yard B", status := "idle", lastSeenAt := t, imageEmoji := "üèóÔ∏è", description := "200-ton mobile crane with extended reach capabilities. Features: 200 ft max reach, computerized load monitoring, 400¬∞ rotation. Ideal for large-scale construction projects.", quantity := 1 },
  { id := "gen-150-1", name := "Generator CAT 150kVA", category := "Generator", site := "Yard A", status := "idle", lastSeenAt := t, imageEmoji := "‚ö°", description := "150kVA diesel generator with automatic transfer switch. Features: 120kW output, 400V/3-phase, fuel tank monitoring. Perfect for backup power and remote site operations.", quantity := 4 },
  { id := "gen-150-2", name := "Generator CAT 150kVA", category := "Generator", site := "Yard A", status := "idle", lastSeenAt := t, imageEmoji := "‚ö°", description := "150kVA diesel generator with automatic transfer switch. Features: 120kW output, 400V/3-phase, fuel tank monitoring. Perfect for backup power and remote site operations.", quantity := 4 },
  { id := "gen-150-3", name := "Generator CAT 150kVA", category := "Generator", site := "Yard A", status := "idle", lastSeenAt := t, imageEmoji := "‚ö°", description := "150kVA diesel generator with automatic transfer switch. Features: 120kW output, 400V/3-phase, fuel tank monitoring. Perfect for backup power and remote site operations.", quantity := 4 },
  { id := "gen-150-4", name := "Generator CAT 150kVA", category := "Generator", site := "Yard A", status := "idle", lastSeenAt := t, imageEmoji := "‚ö°", description := "150kVA diesel generator with automatic transfer switch. Features: 120kW output, 400V/3-phase, fuel tank monitoring. Perfect for backup power and remote site operations.", quantity := 4 },
  { id := "gen-300-1", name := "Generator CAT 300kVA", category := "Generator", site := "Yard B", status := "idle", lastSeenAt := t, imageEmoji := "‚ö°", description := "300kVA industrial generator with advanced monitoring. Features: 240kW output, 480V/3-phase, remote monitoring capabilities. Designed for large construction sites and industrial applications.", quantity := 2 },
  { id := "gen-300-2", name := "Generator CAT 300kVA", category := "Generator", site := "Yard B", status := "idle", lastSeenAt := t, imageEmoji := "‚ö°", description := "300kVA industrial generator with advanced monitoring. Features: 240kW output, 480V/3-phase, remote monitoring capabilities. Designed for large construction sites and industrial applications.", quantity := 2 },
  { id := "gen-500-1", name := "Generator CAT 500kVA", category := "Generator", site := "Yard C", status := "idle", lastSeenAt := t, imageEmoji := "‚ö°", description := "500kVA heavy-duty generator with industrial controls. Features: 400kW output, 600V/3-phase, dual fuel capability. Built for mining and large industrial operations.", quantity := 1 },
  { id := "com-140-1", name := "Compactor CAT 140", category := "Compactor", site := "Yard A", status := "idle", lastSeenAt := t, imageEmoji := "üõ£Ô∏è", description := "14-ton vibratory soil compactor with intelligent compaction control. Features: 4,000 VPM, 2.5 ft drum width, GPS tracking. Perfect for road construction and soil compaction.", quantity := 3 },
  { id := "com-140-2", name := "Compactor CAT 140", category := "Compactor", site := "Yard A", status := "idle", lastSeenAt := t, imageEmoji := "üõ£Ô∏è", description := "14-ton vibratory soil compactor with intelligent compaction control. Features: 4,000 VPM, 2.5 ft drum width, GPS tracking. Perfect for road construction and soil compaction.", quantity := 3 },
  { id := "com-140-3", name := "Compactor CAT 140", category := "Compactor", site := "Yard A", status := "idle", lastSeenAt := t, imageEmoji := "üõ£Ô∏è", description := "14-ton vibratory soil compactor with intelligent compaction control. Features: 4,000 VPM, 2.5 ft drum width, GPS tracking. Perfect for road construction and soil compaction.", quantity := 3 },
  { id := "com-160-1", name := "Compactor CAT 160", category := "Compactor", site := "Yard B", status := "idle", lastSeenAt := t, imageEmoji := "üõ£Ô∏è", description := "16-ton vibratory soil compactor with advanced compaction technology. Features: 4,500 VPM, 3 ft drum width, automatic grade control. Ideal for highway construction and large-scale compaction.", quantity := 2 },
  { id := "com-160-2", name := "Compactor CAT 160", category := "Compactor", site := "Yard B", status := "idle", lastSeenAt := t, imageEmoji := "üõ£Ô∏è", description := "16-ton vibratory soil compactor with advanced compaction technology. Features: 4,500 VPM, 3 ft drum width, automatic grade control. Ideal for highway construction and large-scale compaction.", quantity := 2 },
  { id := "gra-12-1", name := "Grader CAT 12", category := "Grader", site := "Yard A", status := "idle", lastSeenAt := t, imageEmoji := "üõ£Ô∏è", description := "12-foot motor grader with precision blade control. Features: 200 hp, 6-way blade, GPS guidance system. Perfect for road construction and surface finishing.", quantity := 3 },
  { id := "gra-12-2", name := "Grader CAT 12", category := "Grader", site := "Yard A", status := "idle", lastSeenAt := t, imageEmoji := "üõ£Ô∏è", description := "12-foot motor grader with precision blade control. Features: 200 hp, 6-way blade, GPS guidance system. Perfect for road construction and surface finishing.", quantity := 3 },
  { id := "gra-12-3", name := "Grader CAT 12", category := "Grader", site := "Yard A", status := "idle", lastSeenAt := t, imageEmoji := "üõ£Ô∏è", description := "12-foot motor grader with precision blade control. Features: 200 hp, 6-way blade, GPS guidance system. Perfect for road construction and surface finishing.", quantity := 3 },
  { id := "gra-14-1", name := "Grader CAT 14", category := "Grader", site := "Yard B", status := "idle", lastSeenAt := t, imageEmoji := "üõ£Ô∏è", description := "14-foot motor grader with advanced control systems. Features: 250 hp, 8-way blade, automatic grade control. Designed for large-scale road construction projects.", quantity := 2 },
  { id := "gra-14-2", name := "Grader CAT 14", category := "Grader", site := "Yard B", status := "idle", lastSeenAt := t, imageEmoji := "üõ£Ô∏è", description := "14-foot motor grader with advanced control systems. Features: 250 hp, 8-way blade, automatic grade control. Designed for large-scale road construction projects.", quantity := 2 },
  { id := "gra-16-1", name := "Grader CAT 16", category := "Grader", site := "Yard C", status := "idle", lastSeenAt := t, imageEmoji := "üõ£Ô∏è", description := "16-foot motor grader with maximum productivity features. Features: 300 hp, 10-way blade, intelligent grade control. Built for highway and major road construction.", quantity := 1 },
  { id := "rol-120-1", name := "Roller CAT 120", category := "Roller", site := "Yard A", status := "idle", lastSeenAt := t, imageEmoji := "üõ£Ô∏è", description := "12-ton smooth drum roller with vibration control. Features: 2.5 ft drum width, 3,000 VPM, automatic grade control. Perfect for asphalt and soil compaction.", quantity := 4 },
  { id := "rol-120-2", name := "Roller CAT 120", category := "Roller", site := "Yard A", status := "idle", lastSeenAt := t, imageEmoji := "üõ£Ô∏è", description := "12-ton smooth drum roller with vibration control. Features: 2.5 ft drum width, 3,000 VPM, automatic grade control. Perfect for asphalt and soil compaction.", quantity := 4 },
  { id := "rol-120-3", name := "Roller CAT 120", category := "Roller", site := "Yard A", status := "idle", lastSeenAt := t, imageEmoji := "üõ£Ô∏è", description := "12-ton smooth drum roller with vibration control. Features: 2.5 ft drum width, 3,000 VPM, automatic grade control. Perfect for asphalt and soil compaction.", quantity := 4 },
  { id := "rol-120-4", name := "Roller CAT 120", category := "Roller", site := "Yard A", status := "idle", lastSeenAt := t, imageEmoji := "üõ£Ô∏è", description := "12-ton smooth drum roller with vibration control. Features: 2.5 ft drum width, 3,000 VPM, automatic grade control. Perfect for asphalt and soil compaction.", quantity := 4 },
  { id := "rol-140-1", name := "Roller CAT 140", category := "Roller", site := "Yard B", status := "idle", lastSeenAt := t, imageEmoji := "üõ£Ô∏è", description := "14-ton tandem roller with dual drum technology. Features: 3 ft drum width, 3,500 VPM, GPS tracking. Excellent for highway and road construction.", quantity := 2 },
  { id := "rol-140-2", name := "Roller CAT 140", category := "Roller", site := "Yard B", status := "idle", lastSeenAt := t, imageEmoji := "üõ£Ô∏è", description := "14-ton tandem roller with dual drum technology. Features: 3 ft drum width, 3,500 VPM, GPS tracking. Excellent for highway and road construction.", quantity := 2 },
  { id := "rol-160-1", name := "Roller CAT 160", category := "Roller", site := "Yard C", status := "idle", lastSeenAt := t, imageEmoji := "üõ£Ô∏è", description := "16-ton pneumatic roller with advanced compaction control. Features: 3.5 ft drum width, 4,000 VPM, automatic grade control. Built for heavy-duty compaction operations.", quantity := 1 },
  { id := "skd-262-1", name := "Skid Steer CAT 262", category := "Skid Steer", site := "Yard A", status := "idle", lastSeenAt := t, imageEmoji := "üöú", description := "2.6-ton skid steer loader with versatile attachments. Features: 74 hp, 2,600 lb lift capacity, 8.5 ft lift height. Perfect for tight spaces and versatile material handling.", quantity := 5 },
  { id := "skd-262-2", name := "Skid Steer CAT 262", category := "Skid Steer", site := "Yard A", status := "idle", lastSeenAt := t, imageEmoji := "üöú", description := "2.6-ton skid steer loader with versatile attachments. Features: 74 hp, 2,600 lb lift capacity, 8.5 ft lift height. Perfect for tight spaces and versatile material handling.", quantity := 5 },
  { id := "skd-262-3", name := "Skid Steer CAT 262", category := "Skid Steer", site := "Yard A", status := "idle", lastSeenAt := t, imageEmoji := "üöú", description := "2.6-ton skid steer loader with versatile attachments. Features: 74 hp, 2,600 lb lift capacity, 8.5 ft lift height. Perfect for tight spaces and versatile material handling.", quantity := 5 },
  { id := "skd-262-4", name := "Skid Steer CAT 262", category := "Skid Steer", site := "Yard A", status := "idle", lastSeenAt := t, imageEmoji := "üöú", description := "2.6-ton skid steer loader with versatile attachments. Features: 74 hp, 2,600 lb lift capacity, 8.5 ft lift height. Perfect for tight spaces and versatile material handling.", quantity := 5 },
  { id := "skd-262-5", name := "Skid Steer CAT 262", category := "Skid Steer", site := "Yard A", status := "idle", lastSeenAt := t, imageEmoji := "üöú", description := "2.6-ton skid steer loader with versatile attachments. Features: 74 hp, 2,600 lb lift capacity, 8.5 ft lift height. Perfect for tight spaces and versatile material handling.", quantity := 5 },
  { id := "skd-272-1", name := "Skid Steer CAT 272", category := "Skid Steer", site := "Yard B", status := "idle", lastSeenAt := t, imageEmoji := "üöú", description := "2.7-ton skid steer with advanced hydraulic system. Features: 82 hp, 2,700 lb lift capacity, 9 ft lift height. Designed for precision work and heavy material handling.", quantity := 3 },
  { id := "skd-272-2", name := "Skid Steer CAT 272", category := "Skid Steer", site := "Yard B", status := "idle", lastSeenAt := t, imageEmoji := "üöú", description := "2.7-ton skid steer with advanced hydraulic system. Features: 82 hp, 2,700 lb lift capacity, 9 ft lift height. Designed for precision work and heavy material handling.", quantity := 3 },
  { id := "skd-272-3", name := "Skid Steer CAT 272", category := "Skid Steer", site := "Yard B", status := "idle", lastSeenAt := t, imageEmoji := "üöú", description := "2.7-ton skid steer with advanced hydraulic system. Features: 82 hp, 2,700 lb lift capacity, 9 ft lift height. Designed for precision work and heavy material handling.", quantity := 3 },
  { id := "skd-289-1", name := "Skid Steer CAT 289", category := "Skid Steer", site := "Yard C", status := "idle", lastSeenAt := t, imageEmoji := "üöú", description := "2.9-ton skid steer with maximum lift capacity. Features: 90 hp, 2,900 lb lift capacity, 10 ft lift height. Built for heavy material handling and maximum productivity.", quantity := 2 },
  { id := "skd-289-2", name := "Skid Steer CAT 289", category := "Skid Steer", site := "Yard C", status := "idle", lastSeenAt := t, imageEmoji := "üöú", description := "2.9-ton skid steer with maximum lift capacity. Features: 90 hp, 2,900 lb lift capacity, 10 ft lift height. Built for heavy material handling and maximum productivity.", quantity := 2 }
]

/-- The demo rental list written by `seedIfEmpty` (src/app.js lines
125-179); all the `Date.now()` offsets are relative to the seeding time
`t`, and the ISO strings stored in the fields are modelled by their
millisecond values. -/
def seedRentals (t : Int) : List Rental := [
  { id := "r_demo1", assetId := "exc-320-1", site := "Construction Site A",
    checkOutAt := t - 7 * 24 * 60 * 60 * 1000,
    checkInAt := t + 2 * 24 * 60 * 60 * 1000,
    customer := { name := "John Smith", phone := "+1-555-0123",
                  email := "john@construction.com" },
    fuelAtStart := 85, odometerAtStart := 1250,
    notes := "Site excavation work",
    createdAt := t - 7 * 24 * 60 * 60 * 1000,
    returnedAt := none },
  { id := "r_demo2", assetId := "ldr-950-1", site := "Mining Site B",
    checkOutAt := t - 3 * 24 * 60 * 60 * 1000,
    checkInAt := t - 1 * 24 * 60 * 60 * 1000,
    customer := { name := "Sarah Johnson", phone := "+1-555-0456",
                  email := "sarah@mining.com" },
    fuelAtStart := 90, odometerAtStart := 2100,
    notes := "Material loading operations",
    createdAt := t - 3 * 24 * 60 * 60 * 1000,
    returnedAt := none },
  { id := "r_demo3", assetId := "gen-150-1", site := "Event Center",
    checkOutAt := t - 10 * 24 * 60 * 60 * 1000,
    checkInAt := t - 8 * 24 * 60 * 60 * 1000,
    customer := { name := "Mike Wilson", phone := "+1-555-0789",
                  email := "mike@events.com" },
    fuelAtStart := 75, odometerAtStart := 500,
    notes := "Backup power for outdoor event",
    createdAt := t - 10 * 24 * 60 * 60 * 1000,
    returnedAt := some (t - 7 * 24 * 60 * 60 * 1000) }
]

/-- The `seedIfEmpty` function, src/app.js lines 51-181, run at time `t`.
It first calls `localStorage.clear()` (line 53), then reads the asset
collection back (with fallback `[]`), returns early if that read is
non-empty, and otherwise writes the demo assets, demo rentals and the
metadata blob. -/
def seedIfEmpty (_db : PersistedDB) (t : Int) : PersistedDB :=
  let cleared := emptyDB
  if cleared.assets.length > 0 then cleared
  else { assets := seedAssets t, rentals := seedRentals t,
         meta := some { version := "1.0.0", seededAt := t } }

/-- The ledger contents right after seeding at time `t`. -/
def seedStore (t : Int) : Store :=
  { assets := seedAssets t, rentals := seedRentals t }

/-- The ledger with nothing stored: both collections fall back to `[]`
when nothing is persisted (src/app.js lines 183-186). -/
def emptyStore : Store := { assets := [], rentals := [] }

/-- Invariant claimed by the spec: every asset has at most one rental with
`returnedAt == null` referencing it. -/
def AtMostOneActive (s : Store) : Prop :=
  ∀ assetId : String, s.rentals.countP (activeFor assetId) ≤ 1

/-- Invariant claimed by the spec: an asset's status is `rented` exactly
when some rental references it with `returnedAt == null`. -/
def StatusConsistent (s : Store) : Prop :=
  ∀ a ∈ s.assets,
    (a.status = "rented" ↔ ∃ r ∈ s.rentals, r.assetId = a.id ∧ r.returnedAt = none)

/-- Executable check of `StatusConsistent`, used to evaluate concrete
stores. -/
def statusConsistentB (s : Store) : Bool :=
  s.assets.all (fun a => (a.status == "rented") == s.rentals.any (activeFor a.id))

/-- Asset ids are pairwise distinct. -/
def UniqueAssetIds (s : Store) : Prop :=
  s.assets.Pairwise (fun a b => a.id ≠ b.id)

/-- One user-visible ledger mutation, exactly as the code performs it.
The rent form always submits a rental with `returnedAt: null`, and the
add-equipment form always submits an asset with `status: 'idle'`; those
are the only side conditions the code establishes. -/
inductive Step : Store → Store → Prop where
  | add_asset (s : Store) (a : Asset) (h : a.status = "idle") :
      Step s (addAsset s a)
  | check_out (s : Store) (r : Rental) (now : Int) (h : r.returnedAt = none) :
      Step s (checkOut s r now)
  | check_in (s : Store) (assetId : String) (now : Int) (s' : Store)
      (h : checkIn s assetId now = some s') : Step s s'

/-- States reachable through any sequence of ledger mutations. -/
def Reachable (s s' : Store) : Prop := Relation.ReflTransGen Step s s'

/-- Ledger mutations restricted by the guard the spec demands of
check-out: the target asset must have no active rental.  The code does not
implement this guard; the relation exists to state what the invariant
claims can still guarantee under it. -/
inductive GuardedStep : Store → Store → Prop where
  | add_asset (s : Store) (a : Asset) (h : a.status = "idle") :
      GuardedStep s (addAsset s a)
  | check_out (s : Store) (r : Rental) (now : Int) (hr : r.returnedAt = none)
      (hg : s.rentals.all (fun x => !(activeFor r.assetId x)) = true) :
      GuardedStep s (checkOut s r now)
  | check_in (s : Store) (assetId : String) (now : Int) (s' : Store)
      (h : checkIn s assetId now = some s') : GuardedStep s s'

/-- Ledger mutations with the check-out guard of `GuardedStep` and, in
addition, freshness of the id of every added asset (which the code draws
from a random `uid()`): the new id collides with no existing asset id and
no existing rental's `assetId`. -/
inductive FreshStep : Store → Store → Prop where
  | add_asset (s : Store) (a : Asset) (h : a.status = "idle")
      (hfa : s.assets.all (fun b => !(b.id == a.id)) = true)
      (hfr : s.rentals.all (fun x => !(x.assetId == a.id)) = true) :
      FreshStep s (addAsset s a)
  | check_out (s : Store) (r : Rental) (now : Int) (hr : r.returnedAt = none)
      (hg : s.rentals.all (fun x => !(activeFor r.assetId x)) = true) :
      FreshStep s (checkOut s r now)
  | check_in (s : Store) (assetId : String) (now : Int) (s' : Store)
      (h : checkIn s assetId now = some s') : FreshStep s s'

/-- A rental request for `exc-320-1` — an asset that already has the
active demo rental `r_demo1` — as the rent form would build it. -/
def conflictRental : Rental :=
  { id := "r_conflict1", assetId := "exc-320-1", site := "Construction Site A",
    checkOutAt := 0, checkInAt := 2 * 60 * 60 * 1000,
    customer := { name := "Second Customer", phone := "+1-555-0999", email := "" },
    fuelAtStart := 60, odometerAtStart := 1300, notes := "",
    createdAt := 0, returnedAt := none }

/-- The seeded store after checking out `exc-320-1` a second time. -/
def doubleBookedStore : Store := checkOut (seedStore 0) conflictRental 0

/-- The double-booked store after checking `exc-320-1` back in once. -/
def inconsistentStore : Store :=
  (checkIn doubleBookedStore "exc-320-1" 5).getD doubleBookedStore

/-- Small fixture asset used by concrete witnesses. -/
def demoAsset : Asset :=
  { id := "a1", name := "Test Loader", category := "Loader", site := "Yard A",
    status := "rented", lastSeenAt := 0, imageEmoji := "", description := "",
    quantity := 1 }

/-- Small fixture rental, active for `demoAsset`. -/
def demoActiveRental : Rental :=
  { id := "r1", assetId := "a1", site := "Yard A", checkOutAt := 0,
    checkInAt := 10, customer := { name := "N", phone := "P", email := "" },
    fuelAtStart := 0, odometerAtStart := 0, notes := "", createdAt := 0,
    returnedAt := none }

/-- Small fixture store: one asset with one active rental. -/
def demoStore : Store := { assets := [demoAsset], rentals := [demoActiveRental] }

/-- Fixture rental that has already been returned. -/
def returnedRental : Rental :=
  { demoActiveRental with id := "r2", returnedAt := some 5 }

/-- Fixture rental that is overdue relative to `checkInAt = 0`. -/
def overdueRental : Rental :=
  { demoActiveRental with id := "r3", checkInAt := 0 }

/-- Fixture rental whose `assetId` matches no asset at all. -/
def strayRental : Rental :=
  { demoActiveRental with id := "r4", assetId := "no-such-asset" }

/-- Fixture rental targeting `demoAsset` while `demoActiveRental` is still
active for it. -/
def secondRental : Rental :=
  { demoActiveRental with id := "r5", checkInAt := 20 }

/-- Empty key-value store. -/
def kvEmpty : KVStore := fun _ => none

/-- A persisted state with a non-empty asset collection, as left by an
earlier session. -/
def priorDB : PersistedDB := { assets := [demoAsset], rentals := [], meta := none }

/-- The ids of the demo assets, in seed order. -/
def seedAssetIds : List String :=
  ["exc-320-1", "exc-320-2", "exc-320-3", "exc-330-1", "exc-330-2", "exc-349-1", "ldr-950-1", "ldr-950-2", "ldr-950-3", "ldr-950-4", "ldr-966-1", "ldr-966-2", "ldr-980-1", "dmp-730-1", "dmp-730-2", "dmp-730-3", "dmp-740-1", "dmp-740-2", "dmp-750-1", "blt-d6-1", "blt-d6-2", "blt-d6-3", "blt-d8-1", "blt-d8-2", "blt-d9-1", "crn-120-1", "crn-120-2", "crn-200-1", "gen-150-1", "gen-150-2", "gen-150-3", "gen-150-4", "gen-300-1", "gen-300-2", "gen-500-1", "com-140-1", "com-140-2", "com-140-3", "com-160-1", "com-160-2", "gra-12-1", "gra-12-2", "gra-12-3", "gra-14-1", "gra-14-2", "gra-16-1", "rol-120-1", "rol-120-2", "rol-120-3", "rol-120-4", "rol-140-1", "rol-140-2", "rol-160-1", "skd-262-1", "skd-262-2", "skd-262-3", "skd-262-4", "skd-262-5", "skd-272-1", "skd-272-2", "skd-272-3", "skd-289-1", "skd-289-2"]

/-- The statuses and ids of the demo assets, in seed order. -/
def seedAssetStatusIds : List (String × String) :=
  [("rented", "exc-320-1"), ("idle", "exc-320-2"), ("idle", "exc-320-3"), ("idle", "exc-330-1"), ("idle", "exc-330-2"), ("idle", "exc-349-1"), ("rented", "ldr-950-1"), ("idle", "ldr-950-2"), ("idle", "ldr-950-3"), ("idle", "ldr-950-4"), ("idle", "ldr-966-1"), ("idle", "ldr-966-2"), ("idle", "ldr-980-1"), ("idle", "dmp-730-1"), ("idle", "dmp-730-2"), ("idle", "dmp-730-3"), ("idle", "dmp-740-1"), ("idle", "dmp-740-2"), ("idle", "dmp-750-1"), ("idle", "blt-d6-1"), ("idle", "blt-d6-2"), ("idle", "blt-d6-3"), ("idle", "blt-d8-1"), ("idle", "blt-d8-2"), ("idle", "blt-d9-1"), ("idle", "crn-120-1"), ("idle", "crn-120-2"), ("idle", "crn-200-1"), ("idle", "gen-150-1"), ("idle", "gen-150-2"), ("idle", "gen-150-3"), ("idle", "gen-150-4"), ("idle", "gen-300-1"), ("idle", "gen-300-2"), ("idle", "gen-500-1"), ("idle", "com-140-1"), ("idle", "com-140-2"), ("idle", "com-140-3"), ("idle", "com-160-1"), ("idle", "com-160-2"), ("idle", "gra-12-1"), ("idle", "gra-12-2"), ("idle", "gra-12-3"), ("idle", "gra-14-1"), ("idle", "gra-14-2"), ("idle", "gra-16-1"), ("idle", "rol-120-1"), ("idle", "rol-120-2"), ("idle", "rol-120-3"), ("idle", "rol-120-4"), ("idle", "rol-140-1"), ("idle", "rol-140-2"), ("idle", "rol-160-1"), ("idle", "skd-262-1"), ("idle", "skd-262-2"), ("idle", "skd-262-3"), ("idle", "skd-262-4"), ("idle", "skd-262-5"), ("idle", "skd-272-1"), ("idle", "skd-272-2"), ("idle", "skd-272-3"), ("idle", "skd-289-1"), ("idle", "skd-289-2")]

/-- The first demo asset, seeded at time 0 (the head of `seedAssets 0`). -/
def firstSeedAsset : Asset :=
  { id := "exc-320-1", name := "Excavator CAT 320", category := "Excavator", site := "Yard A", status := "rented", lastSeenAt := 0, imageEmoji := "‚õèÔ∏è", description := "20-ton hydraulic excavator with advanced digging capabilities. Features: 1.2 cubic yard bucket, 320¬∞ swing radius, 25.5 ft digging depth. Perfect for foundation work and utility installation.", quantity := 3 }

/-! ## General lemmas about `updateFirst` and active-rental counting -/

theorem updateFirst_of_forall_neg {p : α → Bool} {f : α → α} {l : List α}
    (h : ∀ x ∈ l, p x = false) : updateFirst p f l = l := by
  induction l with
  | nil => rfl
  | cons x xs ih =>
    have hx := h x (List.mem_cons_self x xs)
    simp [updateFirst, hx, ih (fun y hy => h y (List.mem_cons_of_mem _ hy))]

theorem exists_first_decomp {p : α → Bool} {l : List α} (h : l.any p = true) :
    ∃ l1 x l2, l = l1 ++ x :: l2 ∧ p x = true ∧ ∀ y ∈ l1, p y = false := by
  induction l with
  | nil => simp at h
  | cons x xs ih =>
    cases hx : p x with
    | true => exact ⟨[], x, xs, rfl, hx, by simp⟩
    | false =>
      have hxs : xs.any p = true := by simpa [hx] using h
      obtain ⟨l1, y, l2, hdec, hy, hl1⟩ := ih hxs
      refine ⟨x :: l1, y, l2, by simp [hdec], hy, ?_⟩
      intro z hz
      rcases List.mem_cons.mp hz with rfl | hz
      · exact hx
      · exact hl1 z hz

theorem updateFirst_append_cons {p : α → Bool} {f : α → α} {l1 : List α}
    {x : α} {l2 : List α} (h1 : ∀ y ∈ l1, p y = false) (hx : p x = true) :
    updateFirst p f (l1 ++ x :: l2) = l1 ++ f x :: l2 := by
  induction l1 with
  | nil => simp [updateFirst, hx]
  | cons a as ih =>
    have ha := h1 a (List.mem_cons_self a as)
    simp [updateFirst, ha, ih (fun y hy => h1 y (List.mem_cons_of_mem _ hy))]

theorem countP_updateFirst_le {p q : α → Bool} {f : α → α}
    (hf : ∀ x, p (f x) = false) (l : List α) :
    (updateFirst q f l).countP p ≤ l.countP p := by
  induction l with
  | nil => exact Nat.le_refl _
  | cons x xs ih =>
    cases hq : q x with
    | true =>
      have hstep : updateFirst q f (x :: xs) = f x :: xs := by
        simp [updateFirst, hq]
      rw [hstep, List.countP_cons, List.countP_cons, hf x]
      cases hp : p x <;> simp
    | false =>
      have hstep : updateFirst q f (x :: xs) = x :: updateFirst q f xs := by
        simp [updateFirst, hq]
      rw [hstep, List.countP_cons, List.countP_cons]
      cases hp : p x <;> simp <;> try omega

theorem map_updateFirst {p : α → Bool} {f : α → α} {g : α → β}
    (hg : ∀ x, g (f x) = g x) (l : List α) :
    (updateFirst p f l).map g = l.map g := by
  induction l with
  | nil => rfl
  | cons x xs ih =>
    cases hq : p x <;> simp [updateFirst, hq, hg x, ih]

theorem activeFor_iff {assetId : String} {r : Rental} :
    activeFor assetId r = true ↔ (r.assetId = assetId ∧ r.returnedAt = none) := by
  simp [activeFor, Option.isNone_iff_eq_none]

theorem activeFor_eq_false {assetId : String} {r : Rental} :
    activeFor assetId r = false ↔ ¬(r.assetId = assetId ∧ r.returnedAt = none) := by
  rw [← activeFor_iff]
  cases activeFor assetId r <;> simp

theorem hasActive_iff {l : List Rental} {assetId : String} :
    l.any (activeFor assetId) = true ↔
      ∃ r ∈ l, r.assetId = assetId ∧ r.returnedAt = none := by
  rw [List.any_eq_true]
  constructor
  · rintro ⟨r, hr, ha⟩
    exact ⟨r, hr, activeFor_iff.mp ha⟩
  · rintro ⟨r, hr, ha⟩
    exact ⟨r, hr, activeFor_iff.mpr ha⟩

theorem statusConsistentB_iff (s : Store) :
    statusConsistentB s = true ↔ StatusConsistent s := by
  rw [statusConsistentB, StatusConsistent, List.all_eq_true]
  refine forall_congr' fun a => forall_congr' fun _ => ?_
  rw [show ∀ b1 b2 : Bool, ((b1 == b2) = true ↔ (b1 = true ↔ b2 = true)) from by
        intro b1 b2; cases b1 <;> cases b2 <;> simp]
  rw [beq_iff_eq, hasActive_iff]

/-! ## Claim C5: the derived overdue status -/

/-- C5: the derived status marks a rental overdue exactly when
`returnedAt == null` and the current time is past `checkInAt`; once
`returnedAt` is set, `isOverdue` is false for every value of `now`. -/
theorem isOverdue_spec (r : Rental) (now : Int) :
    (isOverdue r now = true ↔ (r.returnedAt = none ∧ now > r.checkInAt)) ∧
    (∀ ts : Int, r.returnedAt = some ts → isOverdue r now = false) := by
  constructor
  · simp [isOverdue, Bool.and_eq_true, Option.isNone_iff_eq_none,
      decide_eq_true_eq, gt_iff_lt]
  · intro ts hts
    simp [isOverdue, hts]

/-- Witness for C5 at a concrete returned rental. -/
theorem isOverdue_spec_witness :
    returnedRental.returnedAt = some 5 ∧ isOverdue returnedRental 999 = false :=
  ⟨rfl, (isOverdue_spec returnedRental 999).2 5 rfl⟩

/-! ## Claim C6: the derived overdue-day count -/

/-- C6: for an overdue rental, `overdueDays` is the ceiling of
`now - checkInAt` in whole days — the unique integer `d` with
`(d-1)·86400000 < now - checkInAt ≤ d·86400000` — and in particular it is
`3` when `checkInAt` is exactly three days (72 hours) before `now`. -/
theorem overdueDays_spec (r : Rental) (now : Int)
    (h1 : r.returnedAt = none) (h2 : now > r.checkInAt) :
    ((overdueDays r now - 1) * 86400000 < (now - r.checkInAt).toNat ∧
      (now - r.checkInAt).toNat ≤ overdueDays r now * 86400000) ∧
    (now = r.checkInAt + 3 * 24 * 60 * 60 * 1000 → overdueDays r now = 3) := by
  have hov : isOverdue r now = true := by
    simp only [isOverdue, h1, Option.isNone_none, Bool.true_and, decide_eq_true_eq]
    omega
  simp only [overdueDays, hov, if_true]
  refine ⟨⟨?_, ?_⟩, fun heq => ?_⟩ <;> omega

/-- Witness for C6: a rental whose expected return was exactly three days
before the current time has an overdue-day count of 3. -/
theorem overdueDays_spec_witness :
    (overdueRental.returnedAt = none ∧ (259200000 : Int) > overdueRental.checkInAt) ∧
    overdueDays overdueRental 259200000 = 3 :=
  ⟨⟨rfl, by decide⟩,
    (overdueDays_spec overdueRental 259200000 rfl (by decide)).2 (by decide)⟩

/-! ## Claim C8: contents of the seeded store -/

/-- C8: seeding an empty store yields a non-empty asset list and a
non-empty rental list in which exactly one rental has `returnedAt == null`
together with `checkInAt` strictly before the seeding time. -/
theorem seed_demo_scenario (t : Int) :
    (seedIfEmpty emptyDB t).assets ≠ [] ∧
    (seedIfEmpty emptyDB t).rentals ≠ [] ∧
    (seedIfEmpty emptyDB t).rentals.countP
      (fun r => r.returnedAt.isNone && decide (r.checkInAt < t)) = 1 := by
  have he : seedIfEmpty emptyDB t =
      { assets := seedAssets t, rentals := seedRentals t,
        meta := some { version := "1.0.0", seededAt := t } } := rfl
  rw [he]
  have h1 : ¬ (t + 172800000 < t) := by omega
  have h2 : t - 86400000 < t := by omega
  refine ⟨by simp [seedAssets], by simp [seedRentals], ?_⟩
  simp [seedRentals, List.countP_cons, h1, h2]

/-! ## Claim C9: persistence-write failure leaves prior state intact -/

/-- C9: a persistence write either fully replaces the blob under its key
(leaving every other key untouched) or — when serialization or the
key-value write fails — leaves the store exactly as it was; the failure is
caught, not fatal. -/
theorem storageSet_spec (kv : KVStore) (key : String) (serialized : Option String)
    (writeOk : Bool) :
    ((serialized = none ∨ writeOk = false) →
      storageSet kv key serialized writeOk = kv) ∧
    (∀ s : String, serialized = some s → writeOk = true →
      (storageSet kv key serialized writeOk key = some s ∧
        ∀ k : String, k ≠ key → storageSet kv key serialized writeOk k = kv k)) := by
  constructor
  · rintro (rfl | rfl)
    · rfl
    · cases serialized <;> simp [storageSet]
  · rintro s rfl rfl
    exact ⟨by simp [storageSet], fun k hk => by simp [storageSet, hk]⟩

/-- Witness for C9: a failed serialization at a concrete store leaves it
unchanged. -/
theorem storageSet_spec_witness :
    ((none : Option String) = none ∨ false = false) ∧
    storageSet kvEmpty "srt_assets" none false = kvEmpty :=
  ⟨Or.inl rfl, (storageSet_spec kvEmpty "srt_assets" none false).1 (Or.inl rfl)⟩

/-! ## Claim C10: check-out with a nonexistent asset id -/

/-- C10: when the requested `assetId` matches no asset, check-out still
appends the rental and leaves the asset list entirely unchanged — no error
is raised. -/
theorem checkOut_missing_asset_frame (s : Store) (r : Rental) (now : Int)
    (h : ∀ a ∈ s.assets, a.id ≠ r.assetId) :
    (checkOut s r now).rentals = s.rentals ++ [r] ∧
    (checkOut s r now).assets = s.assets := by
  refine ⟨rfl, ?_⟩
  show updateFirst _ _ s.assets = s.assets
  apply updateFirst_of_forall_neg
  intro a ha
  exact beq_eq_false_iff_ne.mpr (h a ha)

/-- Witness for C10 at a concrete store and a rental whose `assetId`
matches nothing. -/
theorem checkOut_missing_asset_frame_witness :
    (∀ a ∈ demoStore.assets, a.id ≠ strayRental.assetId) ∧
    ((checkOut demoStore strayRental 7).rentals = demoStore.rentals ++ [strayRental] ∧
      (checkOut demoStore strayRental 7).assets = demoStore.assets) :=
  ⟨by decide, checkOut_missing_asset_frame demoStore strayRental 7 (by decide)⟩

/-! ## Claim C4: check-in behaviour -/

/-- C4: check-in with no active rental for the asset fails and leaves the
ledger untouched; otherwise it succeeds, giving the first — hence, under
the at-most-one-active-rental invariant, the — active rental a
`returnedAt` of the current time, flipping the asset to idle when it is
present, and leaving the asset list unchanged when it is not. -/
theorem checkIn_spec (s : Store) (assetId : String) (now : Int) :
    ((¬ ∃ r ∈ s.rentals, r.assetId = assetId ∧ r.returnedAt = none) →
      checkIn s assetId now = none) ∧
    ((∃ r ∈ s.rentals, r.assetId = assetId ∧ r.returnedAt = none) →
      ∃ s' l1 rr l2, checkIn s assetId now = some s' ∧
        s.rentals = l1 ++ rr :: l2 ∧ rr.assetId = assetId ∧ rr.returnedAt = none ∧
        (∀ x ∈ l1, ¬(x.assetId = assetId ∧ x.returnedAt = none)) ∧
        s'.rentals = l1 ++ { rr with returnedAt := some now } :: l2 ∧
        ((∃ a ∈ s.assets, a.id = assetId) →
          ∃ a1 aa a2, s.assets = a1 ++ aa :: a2 ∧ aa.id = assetId ∧
            (∀ b ∈ a1, b.id ≠ assetId) ∧
            s'.assets = a1 ++ { aa with status := "idle", lastSeenAt := now } :: a2) ∧
        ((∀ a ∈ s.assets, a.id ≠ assetId) → s'.assets = s.assets)) := by
  constructor
  · intro hno
    have hany : s.rentals.any (activeFor assetId) = false := by
      cases h : s.rentals.any (activeFor assetId)
      · rfl
      · exact absurd (hasActive_iff.mp h) hno
    simp [checkIn, hany]
  · intro hex
    have hany : s.rentals.any (activeFor assetId) = true := hasActive_iff.mpr hex
    obtain ⟨l1, rr, l2, hdec, hrr, hl1⟩ := exists_first_decomp hany
    refine ⟨{ assets := updateFirst (fun a => a.id == assetId)
                (fun a => { a with status := "idle", lastSeenAt := now }) s.assets,
              rentals := updateFirst (activeFor assetId)
                (fun r => { r with returnedAt := some now }) s.rentals },
      l1, rr, l2, by simp [checkIn, hany], hdec, (activeFor_iff.mp hrr).1,
      (activeFor_iff.mp hrr).2,
      (fun x hx => activeFor_eq_false.mp (hl1 x hx)), ?_, ?_, ?_⟩
    · show updateFirst _ _ s.rentals = _
      rw [hdec]
      exact updateFirst_append_cons hl1 hrr
    · rintro ⟨a, ha, haid⟩
      have hany2 : s.assets.any (fun a => a.id == assetId) = true :=
        List.any_eq_true.mpr ⟨a, ha, beq_iff_eq.mpr haid⟩
      obtain ⟨a1, aa, a2, hadec, haa, ha1⟩ := exists_first_decomp hany2
      refine ⟨a1, aa, a2, hadec, beq_iff_eq.mp haa,
        fun b hb => beq_eq_false_iff_ne.mp (ha1 b hb), ?_⟩
      show updateFirst _ _ s.assets = _
      rw [hadec]
      exact updateFirst_append_cons ha1 haa
    · intro hnone
      show updateFirst _ _ s.assets = s.assets
      exact updateFirst_of_forall_neg fun a ha => beq_eq_false_iff_ne.mpr (hnone a ha)

/-- Witness for C4 at a concrete store with one active rental: check-in
succeeds there. -/
theorem checkIn_spec_witness :
    (∃ r ∈ demoStore.rentals, r.assetId = "a1" ∧ r.returnedAt = none) ∧
    checkIn demoStore "a1" 9 ≠ none := by
  have hex : ∃ r ∈ demoStore.rentals, r.assetId = "a1" ∧ r.returnedAt = none :=
    ⟨demoActiveRental, List.Mem.head _, rfl, rfl⟩
  refine ⟨hex, ?_⟩
  obtain ⟨s', _, _, _, hsome, _⟩ := (checkIn_spec demoStore "a1" 9).2 hex
  rw [hsome]
  exact Option.some_ne_none s'

/-! ## Claim C1: check-out on an already-rented asset -/

/-- C1 (counterexample): in the seeded store the asset `exc-320-1` already
has an active rental, yet checking it out again does not abort — the
rental list changes, so the operation neither fails nor leaves the ledger
unchanged. -/
theorem checkOut_conflict_not_rejected :
    (∃ r0 ∈ (seedStore 0).rentals,
      r0.assetId = conflictRental.assetId ∧ r0.returnedAt = none) ∧
    (checkOut (seedStore 0) conflictRental 0).rentals ≠ (seedStore 0).rentals := by
  constructor
  · have h : ((seedStore 0).rentals.any (activeFor conflictRental.assetId)) = true := by
      decide
    exact hasActive_iff.mp h
  · intro h
    have hlen := congrArg List.length h
    simp [checkOut] at hlen

/-- C1 (amended): the check-out handler performs no active-rental check.
For every store and rental request — even one whose target asset already
has an active rental — it appends the new rental to the rental list; when
the target asset exists it flips that asset to rented (updating its site
and `lastSeenAt`), and when it does not the asset list is untouched. -/
theorem checkOut_always_appends (s : Store) (r : Rental) (now : Int) :
    (checkOut s r now).rentals = s.rentals ++ [r] ∧
    ((∃ a ∈ s.assets, a.id = r.assetId) →
      ∃ a1 aa a2, s.assets = a1 ++ aa :: a2 ∧ aa.id = r.assetId ∧
        (∀ b ∈ a1, b.id ≠ r.assetId) ∧
        (checkOut s r now).assets =
          a1 ++ { aa with status := "rented", site := r.site, lastSeenAt := now } :: a2) ∧
    ((∀ a ∈ s.assets, a.id ≠ r.assetId) → (checkOut s r now).assets = s.assets) := by
  refine ⟨rfl, ?_, ?_⟩
  · rintro ⟨a, ha, haid⟩
    have hany : s.assets.any (fun a => a.id == r.assetId) = true :=
      List.any_eq_true.mpr ⟨a, ha, beq_iff_eq.mpr haid⟩
    obtain ⟨a1, aa, a2, hadec, haa, ha1⟩ := exists_first_decomp hany
    refine ⟨a1, aa, a2, hadec, beq_iff_eq.mp haa,
      fun b hb => beq_eq_false_iff_ne.mp (ha1 b hb), ?_⟩
    show updateFirst _ _ s.assets = _
    rw [hadec]
    exact updateFirst_append_cons ha1 haa
  · intro hnone
    show updateFirst _ _ s.assets = s.assets
    exact updateFirst_of_forall_neg fun a ha => beq_eq_false_iff_ne.mpr (hnone a ha)

/-- Witness for the amended C1 at a concrete store whose only asset
already has an active rental: the conflicting second check-out still
appends its rental and rewrites the asset. -/
theorem checkOut_always_appends_witness :
    (∃ a ∈ demoStore.assets, a.id = secondRental.assetId) ∧
    (checkOut demoStore secondRental 7).rentals = demoStore.rentals ++ [secondRental] ∧
    (∃ a1 aa a2, demoStore.assets = a1 ++ aa :: a2 ∧ aa.id = secondRental.assetId ∧
      (∀ b ∈ a1, b.id ≠ secondRental.assetId) ∧
      (checkOut demoStore secondRental 7).assets =
        a1 ++ { aa with status := "rented", site := secondRental.site,
                        lastSeenAt := 7 } :: a2) :=
  ⟨⟨demoAsset, List.Mem.head _, rfl⟩,
    (checkOut_always_appends demoStore secondRental 7).1,
    (checkOut_always_appends demoStore secondRental 7).2.1
      ⟨demoAsset, List.Mem.head _, rfl⟩⟩

/-! ## Claim C7: seeding over a non-empty store -/

/-- C7 (counterexample): with a non-empty persisted asset collection,
running the seeding operation does not leave it unchanged —
`seedIfEmpty` starts with `localStorage.clear()`, so the prior collection
is discarded and the demo data is written in its place. -/
theorem seedIfEmpty_clears_nonempty :
    priorDB.assets ≠ [] ∧ (seedIfEmpty priorDB 0).assets ≠ priorDB.assets := by
  constructor
  · simp [priorDB]
  · intro h
    have hlen := congrArg List.length h
    simp [seedIfEmpty, emptyDB, seedAssets, priorDB] at hlen

/-- C7 (amended): because `seedIfEmpty` clears the persisted store before
its emptiness check, the check always sees an empty collection: the result
is independent of the prior persisted state and is always exactly the demo
data with fresh metadata. -/
theorem seedIfEmpty_always_reseeds (db db' : PersistedDB) (t : Int) :
    seedIfEmpty db t = seedIfEmpty db' t ∧
    (seedIfEmpty db t).assets = seedAssets t ∧
    (seedIfEmpty db t).rentals = seedRentals t ∧
    (seedIfEmpty db t).meta = some { version := "1.0.0", seededAt := t } :=
  ⟨rfl, rfl, rfl, rfl⟩

/-! ## Invariants of the seeded store -/

theorem seedAssets_map_id (t : Int) : (seedAssets t).map Asset.id = seedAssetIds := rfl

theorem seedAssets_map_status_id (t : Int) :
    (seedAssets t).map (fun a => (a.status, a.id)) = seedAssetStatusIds := rfl

theorem atMostOne_seed (t : Int) : AtMostOneActive (seedStore t) := by
  intro assetId
  show (seedRentals t).countP (activeFor assetId) ≤ 1
  simp only [seedRentals, List.countP_cons, List.countP_nil, activeFor,
    Option.isNone_none, Option.isNone_some, Bool.and_true, Bool.and_false]
  rcases eq_or_ne ("exc-320-1" : String) assetId with h1 | h1 <;>
    rcases eq_or_ne ("ldr-950-1" : String) assetId with h2 | h2
  · exact absurd (h1.trans h2.symm) (by decide)
  all_goals simp [h1, h2]

theorem uniq_seed (t : Int) : UniqueAssetIds (seedStore t) := by
  show (seedAssets t).Pairwise _
  have h : ((seedAssets t).map Asset.id).Pairwise (· ≠ ·) := by
    rw [seedAssets_map_id]
    decide
  exact List.pairwise_map.mp h

theorem statusConsistent_seed (t : Int) : StatusConsistent (seedStore t) := by
  intro a ha
  have hr : (∃ r ∈ (seedStore t).rentals, r.assetId = a.id ∧ r.returnedAt = none) ↔
      ("exc-320-1" = a.id ∨ "ldr-950-1" = a.id) := by
    show (∃ r ∈ seedRentals t, r.assetId = a.id ∧ r.returnedAt = none) ↔ _
    simp [seedRentals]
  rw [hr]
  have hmem : (a.status, a.id) ∈ (seedAssets t).map (fun x => (x.status, x.id)) :=
    List.mem_map_of_mem _ ha
  rw [seedAssets_map_status_id] at hmem
  have hcheck : ∀ p ∈ seedAssetStatusIds,
      (p.1 = "rented" ↔ ("exc-320-1" = p.2 ∨ "ldr-950-1" = p.2)) := by decide
  exact hcheck _ hmem

/-! ## Preservation of the at-most-one-active-rental invariant -/

theorem countP_singleton_le {p : α → Bool} (x : α) : ([x] : List α).countP p ≤ 1 := by
  cases h : p x <;> simp [List.countP_cons, h]

theorem atMostOne_addAsset (s : Store) (a : Asset) (h : AtMostOneActive s) :
    AtMostOneActive (addAsset s a) := h

theorem atMostOne_checkOut (s : Store) (r : Rental) (now : Int)
    (hg : s.rentals.all (fun x => !(activeFor r.assetId x)) = true)
    (h : AtMostOneActive s) : AtMostOneActive (checkOut s r now) := by
  intro assetId
  show (s.rentals ++ [r]).countP (activeFor assetId) ≤ 1
  rw [List.countP_append]
  by_cases heq : assetId = r.assetId
  · subst heq
    have hzero : s.rentals.countP (activeFor r.assetId) = 0 := by
      rw [List.countP_eq_zero]
      intro x hx
      have hax := List.all_eq_true.mp hg x hx
      simpa using hax
    rw [hzero]
    simpa using countP_singleton_le r
  · have hone : ([r] : List Rental).countP (activeFor assetId) = 0 := by
      have hfalse : activeFor assetId r = false := by
        rw [activeFor_eq_false]
        rintro ⟨hid, -⟩
        exact heq hid.symm
      simp [List.countP_cons, hfalse]
    rw [hone]
    simpa using h assetId

theorem atMostOne_checkIn (s : Store) (assetId : String) (now : Int) (s' : Store)
    (hs : checkIn s assetId now = some s') (h : AtMostOneActive s) :
    AtMostOneActive s' := by
  cases hbany : s.rentals.any (activeFor assetId) with
  | false => simp [checkIn, hbany] at hs
  | true =>
    have hsr : s'.rentals = updateFirst (activeFor assetId)
        (fun r => { r with returnedAt := some now }) s.rentals := by
      simp [checkIn, hbany] at hs
      rw [← hs]
    intro aId
    rw [hsr]
    refine le_trans (countP_updateFirst_le ?_ _) (h aId)
    intro x
    simp [activeFor]

/-! ## Claim C2: the at-most-one-active-rental invariant -/

/-- C2 (counterexample): the state reached from the seeded store by the
single unguarded check-out of `exc-320-1` — an asset that already has an
active rental — carries two active rentals for that asset, so the claimed
invariant fails on a reachable state. -/
theorem reachable_double_booking :
    Reachable (seedStore 0) doubleBookedStore ∧
    ¬ AtMostOneActive doubleBookedStore := by
  constructor
  · exact Relation.ReflTransGen.single (Step.check_out _ conflictRental 0 rfl)
  · intro h
    have hle := h "exc-320-1"
    have h2 : doubleBookedStore.rentals.countP (activeFor "exc-320-1") = 2 := by
      decide
    omega

theorem atMostOne_empty : AtMostOneActive emptyStore := by
  intro assetId
  simp [emptyStore]

theorem atMostOne_reach_of_start {s0 s : Store} (h0 : AtMostOneActive s0)
    (h : Relation.ReflTransGen GuardedStep s0 s) : AtMostOneActive s := by
  induction h with
  | refl => exact h0
  | tail hsteps hstep ih =>
    cases hstep with
    | add_asset a ha => exact atMostOne_addAsset _ _ ih
    | check_out r now hr hg => exact atMostOne_checkOut _ _ _ hg ih
    | check_in aId now s2 hsome => exact atMostOne_checkIn _ _ _ _ hsome ih

/-- C2 (amended): the invariant does hold on every state reachable from
an empty or seeded store when each check-out is restricted to an asset
with no active rental — the guard the spec prescribes but the code omits;
without that restriction the counterexample above shows the invariant can
break. -/
theorem guarded_reachable_at_most_one_active (t : Int) (assetId : String)
    (s : Store)
    (h : Relation.ReflTransGen GuardedStep emptyStore s ∨
      Relation.ReflTransGen GuardedStep (seedStore t) s) :
    s.rentals.countP (activeFor assetId) ≤ 1 := by
  rcases h with h | h
  · exact atMostOne_reach_of_start atMostOne_empty h assetId
  · exact atMostOne_reach_of_start (atMostOne_seed t) h assetId

/-- Witness for the amended C2 at the seeded store itself. -/
theorem guarded_reachable_at_most_one_active_witness :
    (Relation.ReflTransGen GuardedStep emptyStore (seedStore 0) ∨
      Relation.ReflTransGen GuardedStep (seedStore 0) (seedStore 0)) ∧
    (seedStore 0).rentals.countP (activeFor "exc-320-1") ≤ 1 :=
  ⟨Or.inr Relation.ReflTransGen.refl,
    guarded_reachable_at_most_one_active 0 "exc-320-1" (seedStore 0)
      (Or.inr Relation.ReflTransGen.refl)⟩

/-! ## Preservation of asset-id uniqueness -/

theorem uniq_addAsset (s : Store) (a : Asset)
    (hfa : s.assets.all (fun b => !(b.id == a.id)) = true)
    (h : UniqueAssetIds s) : UniqueAssetIds (addAsset s a) := by
  show (s.assets ++ [a]).Pairwise _
  rw [List.pairwise_append]
  refine ⟨h, List.pairwise_singleton _ _, ?_⟩
  intro x hx y hy
  simp only [List.mem_singleton] at hy
  subst hy
  have hax := List.all_eq_true.mp hfa x hx
  simpa using hax

theorem uniq_checkOut (s : Store) (r : Rental) (now : Int)
    (h : UniqueAssetIds s) : UniqueAssetIds (checkOut s r now) := by
  have hm : (checkOut s r now).assets.map Asset.id = s.assets.map Asset.id := by
    refine map_updateFirst ?_ _
    intro x
    rfl
  have h1 : (s.assets.map Asset.id).Pairwise (· ≠ ·) := List.pairwise_map.mpr h
  have h2 : ((checkOut s r now).assets.map Asset.id).Pairwise (· ≠ ·) := by
    rw [hm]; exact h1
  exact List.pairwise_map.mp h2

theorem uniq_checkIn (s : Store) (assetId : String) (now : Int) (s' : Store)
    (hs : checkIn s assetId now = some s') (h : UniqueAssetIds s) :
    UniqueAssetIds s' := by
  cases hbany : s.rentals.any (activeFor assetId) with
  | false => simp [checkIn, hbany] at hs
  | true =>
    have hsa : s'.assets = updateFirst (fun a => a.id == assetId)
        (fun a => { a with status := "idle", lastSeenAt := now }) s.assets := by
      simp [checkIn, hbany] at hs
      rw [← hs]
    have hm : s'.assets.map Asset.id = s.assets.map Asset.id := by
      rw [hsa]
      refine map_updateFirst ?_ _
      intro x
      rfl
    have h1 : (s.assets.map Asset.id).Pairwise (· ≠ ·) := List.pairwise_map.mpr h
    have h2 : (s'.assets.map Asset.id).Pairwise (· ≠ ·) := by
      rw [hm]; exact h1
    exact List.pairwise_map.mp h2

/-! ## Preservation of status consistency -/

theorem exists_active_append {l : List Rental} {r : Rental} {b : String}
    (hne : r.assetId ≠ b) :
    (∃ x ∈ l ++ [r], x.assetId = b ∧ x.returnedAt = none) ↔
      (∃ x ∈ l, x.assetId = b ∧ x.returnedAt = none) := by
  constructor
  · rintro ⟨x, hx, hb, hret⟩
    rcases List.mem_append.mp hx with hx | hx
    · exact ⟨x, hx, hb, hret⟩
    · simp only [List.mem_singleton] at hx
      subst hx
      exact absurd hb hne
  · rintro ⟨x, hx, hb, hret⟩
    exact ⟨x, List.mem_append.mpr (Or.inl hx), hb, hret⟩

theorem exists_active_swap {l1 l2 : List Rental} {rr rr' : Rental} {b : String}
    (h1 : rr.assetId ≠ b) (h2 : rr'.assetId ≠ b) :
    (∃ x ∈ l1 ++ rr :: l2, x.assetId = b ∧ x.returnedAt = none) ↔
      (∃ x ∈ l1 ++ rr' :: l2, x.assetId = b ∧ x.returnedAt = none) := by
  constructor <;> rintro ⟨x, hx, hb, hret⟩
  · rcases List.mem_append.mp hx with hx | hx
    · exact ⟨x, List.mem_append.mpr (Or.inl hx), hb, hret⟩
    · rcases List.mem_cons.mp hx with hx | hx
      · subst hx
        exact absurd hb h1
      · exact ⟨x, List.mem_append.mpr (Or.inr (List.mem_cons_of_mem _ hx)), hb, hret⟩
  · rcases List.mem_append.mp hx with hx | hx
    · exact ⟨x, List.mem_append.mpr (Or.inl hx), hb, hret⟩
    · rcases List.mem_cons.mp hx with hx | hx
      · subst hx
        exact absurd hb h2
      · exact ⟨x, List.mem_append.mpr (Or.inr (List.mem_cons_of_mem _ hx)), hb, hret⟩

theorem statusConsistent_addAsset (s : Store) (a : Asset) (ha : a.status = "idle")
    (hfr : s.rentals.all (fun x => !(x.assetId == a.id)) = true)
    (h : StatusConsistent s) : StatusConsistent (addAsset s a) := by
  intro b hb
  show b.status = "rented" ↔ ∃ r ∈ s.rentals, r.assetId = b.id ∧ r.returnedAt = none
  rcases List.mem_append.mp hb with hb | hb
  · exact h b hb
  · simp only [List.mem_singleton] at hb
    subst hb
    constructor
    · intro hst
      rw [ha] at hst
      exact absurd hst (by decide)
    · rintro ⟨r, hr, hrb, -⟩
      have hax := List.all_eq_true.mp hfr r hr
      simp only [Bool.not_eq_true'] at hax
      exact absurd hrb (beq_eq_false_iff_ne.mp hax)

theorem statusConsistent_checkOut (s : Store) (r : Rental) (now : Int)
    (hr : r.returnedAt = none) (hu : UniqueAssetIds s) (h : StatusConsistent s) :
    StatusConsistent (checkOut s r now) := by
  intro b hb
  show b.status = "rented" ↔
    ∃ x ∈ s.rentals ++ [r], x.assetId = b.id ∧ x.returnedAt = none
  by_cases hex : s.assets.any (fun a => a.id == r.assetId) = true
  · obtain ⟨a1, aa, a2, hadec, haa, ha1⟩ := exists_first_decomp hex
    have haaid : aa.id = r.assetId := beq_iff_eq.mp haa
    have hassets : (checkOut s r now).assets =
        a1 ++ { aa with status := "rented", site := r.site, lastSeenAt := now } :: a2 := by
      show updateFirst _ _ s.assets = _
      rw [hadec]
      exact updateFirst_append_cons ha1 haa
    rw [hassets] at hb
    rcases List.mem_append.mp hb with hb1 | hb2
    · have hbid : b.id ≠ r.assetId := beq_eq_false_iff_ne.mp (ha1 b hb1)
      have hne : r.assetId ≠ b.id := fun hh => hbid hh.symm
      rw [exists_active_append hne]
      have hbmem : b ∈ s.assets := by
        rw [hadec]
        exact List.mem_append.mpr (Or.inl hb1)
      exact h b hbmem
    · rcases List.mem_cons.mp hb2 with hb2 | hb2
      · subst hb2
        constructor
        · intro _
          refine ⟨r, List.mem_append.mpr (Or.inr (List.Mem.head _)), ?_, hr⟩
          show r.assetId = aa.id
          exact haaid.symm
        · intro _
          rfl
      · have hbmem : b ∈ s.assets := by
          rw [hadec]
          exact List.mem_append.mpr (Or.inr (List.mem_cons_of_mem _ hb2))
        have hbne : aa.id ≠ b.id := by
          have hp : s.assets.Pairwise (fun x y => x.id ≠ y.id) := hu
          rw [hadec] at hp
          exact (List.pairwise_cons.mp (List.pairwise_append.mp hp).2.1).1 b hb2
        have hne : r.assetId ≠ b.id := by
          rw [← haaid]
          exact hbne
        rw [exists_active_append hne]
        exact h b hbmem
  · have hassets : (checkOut s r now).assets = s.assets := by
      show updateFirst _ _ s.assets = s.assets
      apply updateFirst_of_forall_neg
      intro x hx
      cases hpx : (x.id == r.assetId) with
      | false => rfl
      | true => exact absurd (List.any_eq_true.mpr ⟨x, hx, hpx⟩) hex
    rw [hassets] at hb
    have hbne : b.id ≠ r.assetId := fun hbid =>
      hex (List.any_eq_true.mpr ⟨b, hb, beq_iff_eq.mpr hbid⟩)
    have hne : r.assetId ≠ b.id := fun hh => hbne hh.symm
    rw [exists_active_append hne]
    exact h b hb

theorem statusConsistent_checkIn (s : Store) (assetId : String) (now : Int)
    (s' : Store) (hs : checkIn s assetId now = some s')
    (h2 : AtMostOneActive s) (hu : UniqueAssetIds s) (h : StatusConsistent s) :
    StatusConsistent s' := by
  cases hbany : s.rentals.any (activeFor assetId) with
  | false => simp [checkIn, hbany] at hs
  | true =>
    have hsr : s'.rentals = updateFirst (activeFor assetId)
        (fun r => { r with returnedAt := some now }) s.rentals := by
      simp [checkIn, hbany] at hs
      rw [← hs]
    have hsa : s'.assets = updateFirst (fun a => a.id == assetId)
        (fun a => { a with status := "idle", lastSeenAt := now }) s.assets := by
      simp [checkIn, hbany] at hs
      rw [← hs]
    obtain ⟨l1, rr, l2, hdec, hrrB, hl1⟩ := exists_first_decomp hbany
    have hrrA := activeFor_iff.mp hrrB
    have hrwr : s'.rentals = l1 ++ { rr with returnedAt := some now } :: l2 := by
      rw [hsr, hdec]
      exact updateFirst_append_cons hl1 hrrB
    have hnone2 : ∀ x ∈ l1 ++ l2, activeFor assetId x = false := by
      have hcount := h2 assetId
      rw [hdec, List.countP_append, List.countP_cons, hrrB, if_pos rfl] at hcount
      intro x hx
      rcases List.mem_append.mp hx with hx | hx
      · exact hl1 x hx
      · have hz : l2.countP (activeFor assetId) = 0 := by omega
        have hnx := List.countP_eq_zero.mp hz x hx
        cases hax : activeFor assetId x with
        | false => rfl
        | true => exact absurd hax hnx
    intro b hbmem'
    rw [hrwr]
    by_cases hexa : s.assets.any (fun a => a.id == assetId) = true
    · obtain ⟨a1, aa, a2, hadec, haa, ha1⟩ := exists_first_decomp hexa
      have haaid : aa.id = assetId := beq_iff_eq.mp haa
      have hsa' : s'.assets = a1 ++ { aa with status := "idle", lastSeenAt := now } :: a2 := by
        rw [hsa, hadec]
        exact updateFirst_append_cons ha1 haa
      rw [hsa'] at hbmem'
      rcases List.mem_append.mp hbmem' with hb1 | hb2
      · have hbid : b.id ≠ assetId := beq_eq_false_iff_ne.mp (ha1 b hb1)
        have hne : rr.assetId ≠ b.id := by
          rw [hrrA.1]
          exact fun hh => hbid hh.symm
        have hne2 : ({ rr with returnedAt := some now } : Rental).assetId ≠ b.id := hne
        rw [← exists_active_swap hne hne2, ← hdec]
        have hbmem : b ∈ s.assets := by
          rw [hadec]
          exact List.mem_append.mpr (Or.inl hb1)
        exact h b hbmem
      · rcases List.mem_cons.mp hb2 with hb2 | hb2
        · subst hb2
          constructor
          · intro hst
            have hst' : ("idle" : String) = "rented" := hst
            exact absurd hst' (by decide)
          · rintro ⟨x, hx, hxid, hxret⟩
            have hxid' : x.assetId = assetId := by
              rw [← haaid]
              exact hxid
            rcases List.mem_append.mp hx with hx | hx
            · have hfx := hl1 x hx
              rw [activeFor_eq_false] at hfx
              exact absurd ⟨hxid', hxret⟩ hfx
            · rcases List.mem_cons.mp hx with hx | hx
              · subst hx
                exact Option.noConfusion hxret
              · have hfx := hnone2 x (List.mem_append.mpr (Or.inr hx))
                rw [activeFor_eq_false] at hfx
                exact absurd ⟨hxid', hxret⟩ hfx
        · have hbmem : b ∈ s.assets := by
            rw [hadec]
            exact List.mem_append.mpr (Or.inr (List.mem_cons_of_mem _ hb2))
          have hbne : aa.id ≠ b.id := by
            have hp : s.assets.Pairwise (fun x y => x.id ≠ y.id) := hu
            rw [hadec] at hp
            exact (List.pairwise_cons.mp (List.pairwise_append.mp hp).2.1).1 b hb2
          have hne : rr.assetId ≠ b.id := by
            rw [hrrA.1, ← haaid]
            exact hbne
          have hne2 : ({ rr with returnedAt := some now } : Rental).assetId ≠ b.id := hne
          rw [← exists_active_swap hne hne2, ← hdec]
          exact h b hbmem
    · have hsa' : s'.assets = s.assets := by
        rw [hsa]
        apply updateFirst_of_forall_neg
        intro x hx
        cases hpx : (x.id == assetId) with
        | false => rfl
        | true => exact absurd (List.any_eq_true.mpr ⟨x, hx, hpx⟩) hexa
      rw [hsa'] at hbmem'
      have hbne : b.id ≠ assetId := fun hbid =>
        hexa (List.any_eq_true.mpr ⟨b, hbmem', beq_iff_eq.mpr hbid⟩)
      have hne : rr.assetId ≠ b.id := by
        rw [hrrA.1]
        exact fun hh => hbne hh.symm
      have hne2 : ({ rr with returnedAt := some now } : Rental).assetId ≠ b.id := hne
      rw [← exists_active_swap hne hne2, ← hdec]
      exact h b hbmem'

/-! ## Claim C3: status consistency -/

theorem freshReach_inv (t : Int) (s : Store)
    (h : Relation.ReflTransGen FreshStep (seedStore t) s) :
    AtMostOneActive s ∧ UniqueAssetIds s ∧ StatusConsistent s := by
  induction h with
  | refl => exact ⟨atMostOne_seed t, uniq_seed t, statusConsistent_seed t⟩
  | tail hsteps hstep ih =>
    obtain ⟨ih1, ih2, ih3⟩ := ih
    cases hstep with
    | add_asset a ha hfa hfr =>
      exact ⟨atMostOne_addAsset _ _ ih1, uniq_addAsset _ _ hfa ih2,
        statusConsistent_addAsset _ _ ha hfr ih3⟩
    | check_out r now hr hg =>
      exact ⟨atMostOne_checkOut _ _ _ hg ih1, uniq_checkOut _ _ _ ih2,
        statusConsistent_checkOut _ _ _ hr ih2 ih3⟩
    | check_in aId now s2 hsome =>
      exact ⟨atMostOne_checkIn _ _ _ _ hsome ih1, uniq_checkIn _ _ _ _ hsome ih2,
        statusConsistent_checkIn _ _ _ _ hsome ih1 ih2 ih3⟩

/-- C3 (counterexample): from the seeded store, an unguarded second
check-out of `exc-320-1` followed by a single check-in of that asset
reaches a state in which the asset's status is idle while a rental still
references it with `returnedAt == null` — the claimed equivalence fails on
a reachable state. -/
theorem reachable_status_inconsistency :
    Reachable (seedStore 0) inconsistentStore ∧
    ¬ StatusConsistent inconsistentStore := by
  constructor
  · have h1 : Step (seedStore 0) doubleBookedStore :=
      Step.check_out _ conflictRental 0 rfl
    have h2 : Step doubleBookedStore inconsistentStore :=
      Step.check_in _ "exc-320-1" 5 _ rfl
    exact Relation.ReflTransGen.tail (Relation.ReflTransGen.single h1) h2
  · intro h
    have hbtrue : statusConsistentB inconsistentStore = true :=
      (statusConsistentB_iff _).mpr h
    have hbfalse : statusConsistentB inconsistentStore = false := by decide
    rw [hbfalse] at hbtrue
    exact Bool.noConfusion hbtrue

/-- C3 (amended): status consistency does hold on every state reachable
from the seeded store when each check-out targets an asset with no active
rental and each added asset carries a fresh id — the discipline the code
relies on but does not enforce; the counterexample above shows the
equivalence can break without the check-out guard. -/
theorem fresh_reachable_status_consistent (t : Int) (s : Store)
    (h : Relation.ReflTransGen FreshStep (seedStore t) s)
    (a : Asset) (ha : a ∈ s.assets) :
    (a.status = "rented" ↔ ∃ r ∈ s.rentals, r.assetId = a.id ∧ r.returnedAt = none) :=
  (freshReach_inv t s h).2.2 a ha

/-- Witness for the amended C3 at the seeded store and its first asset. -/
theorem fresh_reachable_status_consistent_witness :
    Relation.ReflTransGen FreshStep (seedStore 0) (seedStore 0) ∧
    firstSeedAsset ∈ (seedStore 0).assets ∧
    (firstSeedAsset.status = "rented" ↔
      ∃ r ∈ (seedStore 0).rentals,
        r.assetId = firstSeedAsset.id ∧ r.returnedAt = none) :=
  ⟨Relation.ReflTransGen.refl, List.Mem.head _,
    fresh_reachable_status_consistent 0 (seedStore 0)
      Relation.ReflTransGen.refl firstSeedAsset (List.Mem.head _)⟩

end RentalLedger
